import Mathlib

/-!
# Verification of `midi_controller.py` (`ProgramMapper`)

Shallow embedding of the `ProgramMapper` class from `src/midi_controller.py`.

Modelling conventions:
* Timestamps are natural numbers of milliseconds.  Each call to `handle`
  receives one arrival time `now`, standing for the (essentially equal)
  `datetime.now()` values the Python code reads during one call.
* `datetime` subtraction compared against a positive threshold behaves like
  truncated `Nat` subtraction: a negative difference is neither `< 100 ms`
  mistaken for large nor `> 100 ms`, and `Nat` truncation to `0` gives the
  same branch in every comparison the code performs.
* The two three-element deques (`ts_history`, `program_history`) are modelled
  as triples `(oldest, middle, newest)`; the code only ever performs a paired
  `popleft`/`append`, which is the `push` operation below.
* `program_history` holds `Int` because the Python code seeds it with `-1`.
* Python exceptions (`IndexError` on list indexing, `KeyError` on the
  `looper_programs` dict) are modelled by `Option`: `none` means the call
  raised.
* Outgoing messages sent to `outport` and tables written by `save_programs`
  are collected in the `sent` / `saved` fields of the result, in order.
-/

/-- A persisted program table: one loop-configuration per program slot. -/
abbrev Table := List (List Bool)

/-- Incoming and outgoing MIDI messages, as the code inspects them:
a `channel`, a `type`, and either a `program` or a `control`/`value` pair. -/
inductive MidiMessage where
  | program_change (channel : Nat) (program : Nat)
  | control_change (channel : Nat) (control : Nat) (value : Nat)
  | other (channel : Nat)
deriving DecidableEq

/-- `message.channel` in the Python code. -/
def MidiMessage.channel : MidiMessage → Nat
  | .program_change ch _ => ch
  | .control_change ch _ _ => ch
  | .other ch => ch

/-- The mutable attributes of `ProgramMapper` (configuration aside). -/
structure MapperState where
  programs : Table
  edit_mode : Bool
  active_program : Nat
  active_state : List Bool
  ts_history : Nat × Nat × Nat
  program_history : Int × Int × Int
  last_ts : Nat
deriving DecidableEq

/-- The constructor keyword arguments of `ProgramMapper` that the core
logic reads (`outport` and `state_file` are the collaborators). -/
structure Config where
  in_channel : Nat
  out_channel : Nat
  n_loops : Nat
  bank_size : Nat
  n_banks : Nat
  tripletap_time : Nat
deriving DecidableEq

/-- `deque.popleft()` followed by `deque.append t` on a 3-element deque. -/
def pushT (h : Nat × Nat × Nat) (t : Nat) : Nat × Nat × Nat :=
  (h.2.1, h.2.2, t)

/-- `deque.popleft()` followed by `deque.append p` on a 3-element deque. -/
def pushP (h : Int × Int × Int) (p : Int) : Int × Int × Int :=
  (h.2.1, h.2.2, p)

/-- The `self.looper_programs` dict: keyed by the tuple built from a slice of
the active state, so a key that is not one of the four boolean pairs raises
`KeyError` (`none`). -/
def looper_programs : List Bool → Option Nat
  | [false, false] => some 0
  | [true, false] => some 1
  | [false, true] => some 2
  | [true, true] => some 3
  | _ => none

/-- `ProgramMapper.apply_program`: re-derive `active_state` from
`programs[active_program]`, encode it into a looper program number and
build the outgoing program-change.  `none` models the `IndexError` /
`KeyError` the Python code would raise. -/
def apply_program (c : Config) (s : MapperState) : Option (MapperState × MidiMessage) :=
  match s.programs.get? s.active_program with
  | none => none
  | some row =>
    match looper_programs (row.take 2), looper_programs (row.drop 2) with
    | some dl, some dr =>
        some ({ s with active_state := row },
              .program_change c.out_channel (10 * (1 + dl) + dr))
    | _, _ => none

/-- The observable outcome of one `handle` call: the new state, the messages
sent to `outport` and the tables written to the persistent store. -/
structure HandleResult where
  state : MapperState
  sent : List MidiMessage
  saved : List Table
deriving DecidableEq

/-- `ProgramMapper.handle`, one incoming message arriving at time `now`. -/
def handle (c : Config) (s : MapperState) (m : MidiMessage) (now : Nat) :
    Option HandleResult :=
  let lts := s.last_ts
  let s1 : MapperState := { s with last_ts := now }
  if now - lts < 100 then
    some ⟨s1, [], []⟩
  else if m.channel = c.in_channel ∧ 100 < now - s1.ts_history.2.2 then
    let s2 : MapperState :=
      match m with
      | .program_change _ p =>
          { s1 with ts_history := pushT s1.ts_history now,
                    program_history := pushP s1.program_history (p : Int) }
      | _ => s1
    if s2.edit_mode then
      match m with
      | .program_change _ _ =>
          if s2.program_history.2.2 ≠ (s2.active_program : Int) then
            some ⟨{ s2 with edit_mode := false }, [], []⟩
          else
            some ⟨s2, [], []⟩
      | .control_change _ control _ =>
          if 80 ≤ control ∧ control ≤ 83 then
            -- Python `3 - control + 80`; reassociated to `3 + 80 - control`
            -- to stay in `Nat` (equal for the guarded range `control ≤ 83`).
            let loop := 3 + 80 - control
            let p := s2.active_program
            match s2.programs.get? p with
            | none => none
            | some row =>
              match row.get? loop with
              | none => none
              | some b =>
                let s3 : MapperState :=
                  { s2 with programs := s2.programs.set p (row.set loop (!b)) }
                match apply_program c s3 with
                | none => none
                | some (s4, msg) => some ⟨s4, [msg], [s4.programs]⟩
          else
            some ⟨s2, [], []⟩
      | .other _ => some ⟨s2, [], []⟩
    else
      match m with
      | .program_change _ p =>
          if s2.ts_history.2.2 - s2.ts_history.1 ≤ c.tripletap_time ∧
             s2.program_history.1 = s2.program_history.2.1 ∧
             s2.program_history.2.1 = s2.program_history.2.2 then
            some ⟨{ s2 with edit_mode := true, active_program := p }, [], []⟩
          else if s2.active_program ≠ p then
            match apply_program c { s2 with active_program := p } with
            | none => none
            | some (s4, msg) => some ⟨s4, [msg], []⟩
          else
            some ⟨s2, [], []⟩
      | .control_change _ control _ =>
          if 80 ≤ control ∧ control ≤ 83 then
            let loop := 3 + 80 - control
            match s2.active_state.get? loop with
            | none => none
            | some b =>
              some ⟨{ s2 with active_state := s2.active_state.set loop (!b) },
                    [.control_change c.out_channel (80 + loop)
                       (if !b then 127 else 0)], []⟩
          else
            some ⟨s2, [], []⟩
      | .other _ => some ⟨s2, [], []⟩
  else
    some ⟨s1, [], []⟩

/-- The all-false default table built when the state file is missing. -/
def default_table (c : Config) : Table :=
  List.replicate (c.bank_size * c.n_banks) (List.replicate c.n_loops false)

/-- `ProgramMapper.__init__` at time `t0`.  `stored` is what the
`PersistentStore` returns (`none` = `FileNotFoundError`).  The first
component lists the store writes performed during construction (they precede
`apply_program`, so they survive a construction-time exception); the second
is the constructed state with the messages sent, or `none` if construction
raised. -/
def initMapper (c : Config) (stored : Option Table) (t0 : Nat) :
    List Table × Option (MapperState × List MidiMessage) :=
  let (programs, saves) :=
    match stored with
    | some t => (t, ([] : List Table))
    | none => (default_table c, [default_table c])
  let s0 : MapperState :=
    { programs := programs, edit_mode := false, active_program := 0,
      active_state := [], ts_history := (t0, t0, t0),
      program_history := (-1, -1, -1), last_ts := t0 }
  match apply_program c s0 with
  | none => (saves, none)
  | some (s1, msg) =>
    match s1.programs.get? s1.active_program with
    | none => (saves, none)
    | some row => (saves, some ({ s1 with active_state := row }, [msg]))

/-- Driving `handle` over a list of timestamped messages, accumulating the
messages sent and the tables saved (the `for message in inport` loop). -/
def handleSeq (c : Config) (s : MapperState) :
    List (MidiMessage × Nat) → Option HandleResult
  | [] => some ⟨s, [], []⟩
  | (m, t) :: rest =>
    match handle c s m t with
    | none => none
    | some r =>
      match handleSeq c r.state rest with
      | none => none
      | some r2 => some ⟨r2.state, r.sent ++ r2.sent, r.saved ++ r2.saved⟩

/-- Every event in the list arrives strictly less than 100 ms after its
predecessor (the first, less than 100 ms after time `t`). -/
def debounceChain : Nat → List (MidiMessage × Nat) → Bool
  | _, [] => true
  | t, (_, t') :: rest => decide (t' - t < 100) && debounceChain t' rest

/-- Arrival time of the last event of the list (`t` if empty). -/
def lastTs (t : Nat) : List (MidiMessage × Nat) → Nat
  | [] => t
  | (_, t') :: rest => lastTs t' rest

/-- The digit table of spec §4.3, written from the spec's words:
(false,false)→0, (true,false)→1, (false,true)→2, (true,true)→3. -/
def spec_pair_digit : Bool → Bool → Nat
  | false, false => 0
  | true, false => 1
  | false, true => 2
  | true, true => 3

/-! ## Helper lemmas -/

/-- Setting an index that exists makes `get?` return the new value. -/
theorem get?_set_self {α : Type} (l : List α) (i : Nat) (a b : α)
    (h : l.get? i = some b) : (l.set i a).get? i = some a := by
  induction l generalizing i with
  | nil => simp [List.get?] at h
  | cons x xs ih =>
    cases i with
    | zero => simp
    | succ n =>
      simpa using ih n (by simpa using h)

/-- The dict lookup on a two-element key always succeeds and agrees with the
spec's digit table. -/
theorem looper_programs_pair (x y : Bool) :
    looper_programs [x, y] = some (spec_pair_digit x y) := by
  cases x <;> cases y <;> rfl

/-- Characterization of a successful `apply_program`. -/
theorem apply_program_some {c : Config} {s s' : MapperState} {msg : MidiMessage}
    (h : apply_program c s = some (s', msg)) :
    ∃ row dl dr,
      s.programs.get? s.active_program = some row ∧
      looper_programs (row.take 2) = some dl ∧
      looper_programs (row.drop 2) = some dr ∧
      s' = { s with active_state := row } ∧
      msg = .program_change c.out_channel (10 * (1 + dl) + dr) := by
  unfold apply_program at h
  split at h
  · exact absurd h (by simp)
  · rename_i row hrow
    split at h
    · rename_i dl dr hdl hdr
      have h' := Option.some.inj h
      exact ⟨row, dl, dr, hrow, hdl, hdr,
        (congrArg Prod.fst h').symm, (congrArg Prod.snd h').symm⟩
    · exact absurd h (by simp)

/-- An event arriving within 100 ms of the previous one is rejected by the
debounce filter, and only the debounce clock moves. -/
theorem handle_debounce_reject (c : Config) (s : MapperState) (m : MidiMessage)
    (now : Nat) (h : now - s.last_ts < 100) :
    handle c s m now = some ⟨{ s with last_ts := now }, [], []⟩ := by
  unfold handle
  simp only [h, if_true]

/-- Whatever `handle` does, the state it returns has `last_ts = now`:
the debounce clock is written before any filtering. -/
theorem handle_some_last_ts {c : Config} {s : MapperState} {m : MidiMessage}
    {now : Nat} {r : HandleResult} (h : handle c s m now = some r) :
    r.state.last_ts = now := by
  cases m <;> simp only [handle] at h
  repeat' split at h
  all_goals try exact Option.some.inj h ▸ rfl
  all_goals try exact Option.noConfusion h
  all_goals rename_i happ
  all_goals obtain ⟨row, dl, dr, hrow, hdl, hdr, hs4, hmsg⟩ := apply_program_some happ
  all_goals subst hs4
  all_goals exact Option.some.inj h ▸ rfl

/-- Chained debounced events: in an unbroken `< 100 ms` chain every event is
rejected, and the run only slides the debounce clock to the last arrival. -/
theorem handleSeq_debounced (c : Config) :
    ∀ (events : List (MidiMessage × Nat)) (q : MapperState) (t : Nat),
      q.last_ts = t → debounceChain t events = true →
      handleSeq c q events = some ⟨{ q with last_ts := lastTs t events }, [], []⟩
  | [], q, t, hlast, _ => by
      subst hlast
      rfl
  | (m, t') :: rest, q, t, hlast, hchain => by
      have hc := hchain
      simp only [debounceChain, Bool.and_eq_true, decide_eq_true_eq] at hc
      have h1 : handle c q m t' = some ⟨{ q with last_ts := t' }, [], []⟩ :=
        handle_debounce_reject c q m t' (by rw [hlast]; exact hc.1)
      have h2 := handleSeq_debounced c rest { q with last_ts := t' } t' rfl hc.2
      simp only [handleSeq, h1, h2, lastTs, List.nil_append, List.append_nil]

/-! ## Concrete fixtures for witnesses and counterexamples -/

/-- A small concrete configuration: input channel 0, output channel 3,
4 loops, 6 one-slot banks, 1 s triple-tap window. -/
def cfg6 : Config := ⟨0, 3, 4, 1, 6, 1000⟩

/-- A concrete normal-mode state whose debounce clock reads 1000 ms. -/
def stateAt1000 : MapperState :=
  { programs := [[false, false, false, false]], edit_mode := false,
    active_program := 0, active_state := [false, false, false, false],
    ts_history := (0, 0, 0), program_history := (-1, -1, -1), last_ts := 1000 }

/-! ## C4 -/

/-- Counterexample to **C4** as stated: an event 50 ms after the previous one
is rejected, but the state does change — the debounce clock `last_ts`
is overwritten with the new arrival time. -/
theorem c4_counterexample :
    (handle cfg6 stateAt1000 (.program_change 0 0) 1050).map HandleResult.state ≠
      some stateAt1000 := by
  decide

/-- **C4** (amended): an event arriving less than 100 ms after the previously
handled event is rejected — no message is sent, nothing is saved, and no state
changes except the debounce clock, which is set to the event's arrival time —
regardless of the event's type, channel or content. -/
theorem c4_debounce_rejects_event (c : Config) (s : MapperState)
    (m : MidiMessage) (now : Nat) (h : now - s.last_ts < 100) :
    handle c s m now = some ⟨{ s with last_ts := now }, [], []⟩ :=
  handle_debounce_reject c s m now h

/-- Witness for **C4**: the amended theorem applied at a concrete input. -/
theorem c4_witness :
    1050 - stateAt1000.last_ts < 100 ∧
      handle cfg6 stateAt1000 (.program_change 0 0) 1050 =
        some ⟨{ stateAt1000 with last_ts := 1050 }, [], []⟩ :=
  ⟨by decide, c4_debounce_rejects_event cfg6 stateAt1000 (.program_change 0 0) 1050 (by decide)⟩

/-! ## C7 and C10 -/

/-- A concrete edit-mode state: editing program 1 of a two-slot table. -/
def editState1 : MapperState :=
  { programs := [[false, false, false, false], [true, false, false, true]],
    edit_mode := true, active_program := 1,
    active_state := [true, false, false, true],
    ts_history := (0, 100, 220), program_history := (1, 1, 1), last_ts := 220 }

/-- **C7**: in edit mode, a channel-matched program-change for a different
program that passes the admission filters only clears the edit flag (plus the
admission bookkeeping: debounce clock and event history): the table, the
active program and the active state are untouched, nothing is sent and
nothing is saved. -/
theorem c7_edit_exit_is_pure_transition (c : Config) (s : MapperState)
    (q now : Nat) (hmode : s.edit_mode = true)
    (hq : q ≠ s.active_program)
    (hdeb : 100 ≤ now - s.last_ts)
    (hdup : 100 < now - s.ts_history.2.2) :
    handle c s (.program_change c.in_channel q) now =
      some ⟨{ s with
                last_ts := now,
                ts_history := pushT s.ts_history now,
                program_history := pushP s.program_history (q : Int),
                edit_mode := false }, [], []⟩ := by
  have hq' : ((q : Int)) ≠ (s.active_program : Int) := by exact_mod_cast hq
  simp only [handle, MidiMessage.channel]
  rw [if_neg (by omega), if_pos ⟨trivial, hdup⟩]
  simp only [hmode, pushP, pushT, if_true]
  rw [if_pos hq']

/-- Witness for **C7** at a concrete input. -/
theorem c7_witness :
    editState1.edit_mode = true ∧ (0 : Nat) ≠ editState1.active_program ∧
      100 ≤ 400 - editState1.last_ts ∧ 100 < 400 - editState1.ts_history.2.2 ∧
      handle cfg6 editState1 (.program_change cfg6.in_channel 0) 400 =
        some ⟨{ editState1 with
                  last_ts := 400,
                  ts_history := pushT editState1.ts_history 400,
                  program_history := pushP editState1.program_history (0 : Int),
                  edit_mode := false }, [], []⟩ :=
  ⟨by decide, by decide, by decide, by decide,
    c7_edit_exit_is_pure_transition cfg6 editState1 0 400 (by decide) (by decide)
      (by decide) (by decide)⟩

/-- **C10**: in edit mode, a channel-matched program-change for the program
being edited, passing the admission filters, changes nothing but the
admission bookkeeping: the event history and the debounce clock.  The mode
stays `Edit`, the table, active program and active state are untouched,
nothing is sent and nothing is saved. -/
theorem c10_edit_same_program_is_noop (c : Config) (s : MapperState)
    (now : Nat) (hmode : s.edit_mode = true)
    (hdeb : 100 ≤ now - s.last_ts)
    (hdup : 100 < now - s.ts_history.2.2) :
    handle c s (.program_change c.in_channel s.active_program) now =
      some ⟨{ s with
                last_ts := now,
                ts_history := pushT s.ts_history now,
                program_history :=
                  pushP s.program_history (s.active_program : Int) },
            [], []⟩ := by
  simp only [handle, MidiMessage.channel]
  rw [if_neg (by omega), if_pos ⟨trivial, hdup⟩]
  simp only [hmode, pushP, pushT, if_true]
  rw [if_neg (by simp)]

/-- Witness for **C10** at a concrete input. -/
theorem c10_witness :
    editState1.edit_mode = true ∧
      100 ≤ 400 - editState1.last_ts ∧ 100 < 400 - editState1.ts_history.2.2 ∧
      handle cfg6 editState1 (.program_change cfg6.in_channel editState1.active_program) 400 =
        some ⟨{ editState1 with
                  last_ts := 400,
                  ts_history := pushT editState1.ts_history 400,
                  program_history :=
                    pushP editState1.program_history
                      (editState1.active_program : Int) }, [], []⟩ :=
  ⟨by decide, by decide, by decide,
    c10_edit_same_program_is_noop cfg6 editState1 400 (by decide) (by decide) (by decide)⟩

/-! ## C6 -/

/-- **C6**: in normal mode, a channel-matched control-change with control in
80–83 passing the admission filters flips only `active_state[3+80-control]`
(that is, `3 - (control - 80)`), sends exactly one control-change on the
output channel with control `80 + loop` and value 127 when the loop is now
engaged (0 otherwise), and leaves the table and the store untouched. -/
theorem c6_manual_toggle_isolated (c : Config) (s : MapperState)
    (ctl v now : Nat) (b : Bool)
    (hmode : s.edit_mode = false)
    (hdeb : 100 ≤ now - s.last_ts)
    (hdup : 100 < now - s.ts_history.2.2)
    (hctl : 80 ≤ ctl ∧ ctl ≤ 83)
    (hidx : s.active_state.get? (3 + 80 - ctl) = some b) :
    handle c s (.control_change c.in_channel ctl v) now =
      some ⟨{ s with
                last_ts := now,
                active_state := s.active_state.set (3 + 80 - ctl) (!b) },
            [.control_change c.out_channel (80 + (3 + 80 - ctl))
               (if !b then 127 else 0)], []⟩ := by
  simp only [handle, MidiMessage.channel]
  rw [if_neg (by omega), if_pos ⟨trivial, hdup⟩]
  rw [if_neg (by simp [hmode])]
  rw [if_pos hctl]
  simp only [hidx]

/-- Witness for **C6** at a concrete input: control 81 toggles loop 2. -/
theorem c6_witness :
    stateAt1000.edit_mode = false ∧
      100 ≤ 1200 - stateAt1000.last_ts ∧
      100 < 1200 - stateAt1000.ts_history.2.2 ∧
      (80 ≤ 81 ∧ 81 ≤ 83) ∧
      stateAt1000.active_state.get? (3 + 80 - 81) = some false ∧
      handle cfg6 stateAt1000 (.control_change cfg6.in_channel 81 127) 1200 =
        some ⟨{ stateAt1000 with
                  last_ts := 1200,
                  active_state := stateAt1000.active_state.set (3 + 80 - 81) (!false) },
              [.control_change cfg6.out_channel (80 + (3 + 80 - 81))
                 (if !false then 127 else 0)], []⟩ :=
  ⟨by decide, by decide, by decide, by decide, by decide,
    c6_manual_toggle_isolated cfg6 stateAt1000 81 127 1200 false (by decide)
      (by decide) (by decide) (by decide) (by decide)⟩

/-! ## C1 -/

/-- A concrete edit-mode state on a two-slot all-false table, editing
program 0. -/
def editStateAllOff : MapperState :=
  { programs := [[false, false, false, false], [false, false, false, false]],
    edit_mode := true, active_program := 0,
    active_state := [false, false, false, false],
    ts_history := (0, 100, 220), program_history := (0, 0, 0), last_ts := 220 }

/-- Counterexample to **C1** as stated: from `Edit(0)` with an all-false
table, the control-change on control 82 makes the code send program number
`10 * (1 + 2) + 0 = 30` (left pair `(false, true)` has digit 2), not 12:
the spec's own worked example miscomputes its §4.3 rule. -/
theorem c1_counterexample :
    (handle cfg6 editStateAllOff (.control_change 0 82 127) 400).map
        HandleResult.sent ≠ some [.program_change 3 12] := by
  decide

/-- **C1** (amended): in `Edit(P)` with `ProgramTable[P]` all false, a
channel-matched control-change on control 82 passing the admission filters
flips `ProgramTable[P][1]` to true, sends exactly one program-change whose
program number is 30 (= 10 × (2 + 1) + 0 by the §4.3 digit table), and
writes the full updated table to the persistent store. -/
theorem c1_edit_mutation_roundtrip (c : Config) (s : MapperState) (v now : Nat)
    (hmode : s.edit_mode = true)
    (hrow : s.programs.get? s.active_program = some [false, false, false, false])
    (hdeb : 100 ≤ now - s.last_ts)
    (hdup : 100 < now - s.ts_history.2.2) :
    handle c s (.control_change c.in_channel 82 v) now =
      some ⟨{ s with
                last_ts := now,
                programs := s.programs.set s.active_program
                  [false, true, false, false],
                active_state := [false, true, false, false] },
            [.program_change c.out_channel 30],
            [s.programs.set s.active_program [false, true, false, false]]⟩ := by
  have hset : (s.programs.set s.active_program
        ([false, false, false, false].set (3 + 80 - 82) (!false))).get?
        s.active_program =
      some ([false, false, false, false].set (3 + 80 - 82) (!false)) :=
    get?_set_self _ _ _ _ hrow
  simp only [handle, MidiMessage.channel]
  rw [if_neg (by omega), if_pos ⟨trivial, hdup⟩]
  simp only [hmode, if_true]
  rw [if_pos (by norm_num)]
  simp only [hrow,
    show ([false, false, false, false] : List Bool).get? (3 + 80 - 82) =
      some false from rfl,
    apply_program, hset]
  rfl

/-- Witness for **C1** at a concrete input. -/
theorem c1_witness :
    editStateAllOff.edit_mode = true ∧
      editStateAllOff.programs.get? editStateAllOff.active_program =
        some [false, false, false, false] ∧
      100 ≤ 400 - editStateAllOff.last_ts ∧
      100 < 400 - editStateAllOff.ts_history.2.2 ∧
      handle cfg6 editStateAllOff (.control_change cfg6.in_channel 82 127) 400 =
        some ⟨{ editStateAllOff with
                  last_ts := 400,
                  programs := editStateAllOff.programs.set
                    editStateAllOff.active_program [false, true, false, false],
                  active_state := [false, true, false, false] },
              [.program_change cfg6.out_channel 30],
              [editStateAllOff.programs.set editStateAllOff.active_program
                 [false, true, false, false]]⟩ :=
  ⟨by decide, by decide, by decide, by decide,
    c1_edit_mutation_roundtrip cfg6 editStateAllOff 127 400 (by decide)
      (by decide) (by decide) (by decide)⟩

/-! ## C2 -/

/-- A state whose active program has a five-flag configuration
(`n_loops = 5`), as the claim's "length ≥ 4" permits. -/
def stateLen5 : MapperState :=
  { programs := [[false, false, false, false, false]], edit_mode := false,
    active_program := 0, active_state := [], ts_history := (0, 0, 0),
    program_history := (-1, -1, -1), last_ts := 0 }

/-- Counterexample to **C2** as stated: on a length-5 configuration the code
builds a three-element tuple for the right pair, which is not a key of the
`looper_programs` dict — `apply_program` raises `KeyError` (`none`) instead of
returning the program number the claim computes from flags 0–3 (here 10). -/
theorem c2_counterexample :
    apply_program cfg6 stateLen5 ≠
        some ({ stateLen5 with
                  active_state := [false, false, false, false, false] },
          .program_change cfg6.out_channel
            (10 * (spec_pair_digit false false + 1) + spec_pair_digit false false)) ∧
      apply_program cfg6 stateLen5 = none := by
  decide

/-- **C2** (amended): for a configuration of length exactly 4 the encoding
matches the spec's digit table — `apply_program` re-derives the active state
and sends program `10 × (left_digit + 1) + right_digit` on the configured
output channel, where the left digit comes from `(flag[0], flag[1])` and the
right digit from `(flag[2], flag[3])`. -/
theorem c2_encoding_matches_digit_table (c : Config) (s : MapperState)
    (b0 b1 b2 b3 : Bool)
    (hrow : s.programs.get? s.active_program = some [b0, b1, b2, b3]) :
    apply_program c s =
      some ({ s with active_state := [b0, b1, b2, b3] },
        .program_change c.out_channel
          (10 * (spec_pair_digit b0 b1 + 1) + spec_pair_digit b2 b3)) := by
  simp only [apply_program, hrow,
    show ([b0, b1, b2, b3] : List Bool).take 2 = [b0, b1] from rfl,
    show ([b0, b1, b2, b3] : List Bool).drop 2 = [b2, b3] from rfl,
    looper_programs_pair]
  rw [Nat.add_comm 1 (spec_pair_digit b0 b1)]

/-- Witness for **C2** at a concrete input: `[true, false, false, true]`
encodes to `10 × (1 + 1) + 2 = 22`. -/
theorem c2_witness :
    editState1.programs.get? editState1.active_program =
        some [true, false, false, true] ∧
      apply_program cfg6 editState1 =
        some ({ editState1 with active_state := [true, false, false, true] },
          .program_change cfg6.out_channel
            (10 * (spec_pair_digit true false + 1) + spec_pair_digit false true)) :=
  ⟨by decide,
    c2_encoding_matches_digit_table cfg6 editState1 true false false true (by decide)⟩

/-! ## C8 -/

/-- **C8**: when the store reports no saved state, construction builds the
all-false `bank_size * n_banks` by `n_loops` table, immediately writes that
default table to the store, and (when construction completes) that table is
the in-memory `programs`. -/
theorem c8_missing_store_self_heals (c : Config) (t0 : Nat) :
    (initMapper c none t0).1 = [default_table c] ∧
      ∀ st msgs, (initMapper c none t0).2 = some (st, msgs) →
        st.programs = default_table c := by
  constructor
  · simp only [initMapper]
    split
    · rfl
    · split <;> rfl
  · intro st msgs h
    simp only [initMapper] at h
    split at h
    · exact absurd h (by simp)
    · rename_i s1 msg happ
      split at h
      · exact absurd h (by simp)
      · rename_i row hrow
        obtain ⟨row0, dl, dr, hrow0, hdl, hdr, hs1, hmsg⟩ := apply_program_some happ
        have hst : st = { s1 with active_state := row } := by
          have := Option.some.inj h
          exact (congrArg Prod.fst this).symm
        subst hst
        subst hs1
        rfl
  
/-- The state constructed in the concrete witness below. -/
def initStateW : MapperState :=
  { programs := [[false, false, false, false]], edit_mode := false,
    active_program := 0, active_state := [false, false, false, false],
    ts_history := (0, 0, 0), program_history := (-1, -1, -1), last_ts := 0 }

/-- Witness for **C8** at a concrete input: a one-slot, four-loop
configuration. -/
theorem c8_witness :
    (initMapper ⟨0, 3, 4, 1, 1, 1000⟩ none 0).1 =
        [default_table ⟨0, 3, 4, 1, 1, 1000⟩] ∧
      (initMapper ⟨0, 3, 4, 1, 1, 1000⟩ none 0).2 =
        some (initStateW, [.program_change 3 10]) ∧
      initStateW.programs = default_table ⟨0, 3, 4, 1, 1, 1000⟩ :=
  ⟨(c8_missing_store_self_heals ⟨0, 3, 4, 1, 1, 1000⟩ 0).1, by decide,
    (c8_missing_store_self_heals ⟨0, 3, 4, 1, 1, 1000⟩ 0).2 initStateW
      [.program_change 3 10] (by decide)⟩

/-! ## C3 -/

/-- **C3**: in normal mode, a channel-matched program-change passing the
admission filters transitions to `Edit(p)` with `active_program = p` exactly
when, after the event is pushed into the history, all three history entries
carry the event's program and the newest-minus-oldest span is at most the
triple-tap window; the triple-tap branch precedes the plain program-switch
branch, so an event matching both enters edit mode. -/
theorem c3_tripletap_entry_iff (c : Config) (s : MapperState) (prog now : Nat)
    (hmode : s.edit_mode = false)
    (hdeb : 100 ≤ now - s.last_ts)
    (hdup : 100 < now - s.ts_history.2.2) :
    (∃ r, handle c s (.program_change c.in_channel prog) now = some r ∧
       r.state.edit_mode = true ∧ r.state.active_program = prog) ↔
      (s.program_history.2.1 = (prog : Int) ∧
       s.program_history.2.2 = (prog : Int) ∧
       now - s.ts_history.2.1 ≤ c.tripletap_time) := by
  simp only [handle, MidiMessage.channel, pushP, pushT]
  rw [if_neg (by omega), if_pos ⟨trivial, hdup⟩]
  rw [if_neg (by simp [hmode])]
  constructor
  · rintro ⟨r, hr, hedit, hactive⟩
    by_cases htriple :
        now - s.ts_history.2.1 ≤ c.tripletap_time ∧
          s.program_history.2.1 = s.program_history.2.2 ∧
          s.program_history.2.2 = (prog : Int)
    · exact ⟨htriple.2.1.trans htriple.2.2, htriple.2.2, htriple.1⟩
    · rw [if_neg htriple] at hr
      by_cases hsw : s.active_program ≠ prog
      · rw [if_pos hsw] at hr
        rcases happ : apply_program c
            { s with
                ts_history := (s.ts_history.2.1, s.ts_history.2.2, now),
                program_history :=
                  (s.program_history.2.1, s.program_history.2.2, (prog : Int)),
                last_ts := now, active_program := prog } with _ | ⟨s4, msg⟩
        · rw [happ] at hr
          exact Option.noConfusion hr
        · rw [happ] at hr
          obtain rfl := Option.some.inj hr
          obtain ⟨row, dl, dr, hrow, hdl, hdr, hs4, hmsg⟩ := apply_program_some happ
          subst hs4
          simp [hmode] at hedit
      · rw [if_neg hsw] at hr
        obtain rfl := Option.some.inj hr
        simp [hmode] at hedit
  · rintro ⟨h1, h2, h3⟩
    refine ⟨⟨{ s with
                 ts_history := (s.ts_history.2.1, s.ts_history.2.2, now),
                 program_history :=
                   (s.program_history.2.1, s.program_history.2.2, (prog : Int)),
                 last_ts := now, edit_mode := true, active_program := prog },
             [], []⟩, ?_, rfl, rfl⟩
    rw [if_pos ⟨h3, h1.trans h2.symm, h2⟩]

/-- Witness for **C3** at a concrete input: third press of program 1 at
700 ms after presses at 0 ms and 300 ms enters edit mode. -/
def stateTwoTaps : MapperState :=
  { programs := [[false, false, false, false], [false, false, false, false]],
    edit_mode := false, active_program := 1,
    active_state := [false, false, false, false],
    ts_history := (0, 0, 300), program_history := (-1, 1, 1), last_ts := 300 }

/-- Witness for **C3**: the theorem applied at the concrete two-taps state,
in the direction that enters edit mode. -/
theorem c3_witness :
    ∃ r, handle cfg6 stateTwoTaps (.program_change cfg6.in_channel 1) 700 = some r ∧
      r.state.edit_mode = true ∧ r.state.active_program = 1 :=
  (c3_tripletap_entry_iff cfg6 stateTwoTaps 1 700 (by decide) (by decide)
    (by decide)).mpr ⟨by decide, by decide, by decide⟩

/-! ## C5 -/

/-- The state a fresh construction yields under `cfg6` with no stored table. -/
def initState6 : MapperState :=
  { programs := [[false, false, false, false], [false, false, false, false],
                 [false, false, false, false], [false, false, false, false],
                 [false, false, false, false], [false, false, false, false]],
    edit_mode := false, active_program := 0,
    active_state := [false, false, false, false],
    ts_history := (0, 0, 0), program_history := (-1, -1, -1), last_ts := 0 }

/-- Two presses of program 5 followed by a manual loop toggle: the toggle
makes `active_state` diverge from the table, which is allowed in normal
mode. -/
def c5Events : List (MidiMessage × Nat) :=
  [(.program_change 0 5, 200), (.program_change 0 5, 400),
   (.control_change 0 80 127, 600)]

/-- The result of running `c5Events` from the fresh state. -/
def c5Pre : HandleResult :=
  ⟨{ initState6 with
       active_program := 5, active_state := [false, false, false, true],
       ts_history := (0, 200, 400), program_history := (-1, 5, 5),
       last_ts := 600 },
   [.program_change 3 10, .control_change 3 83 127], []⟩

/-- The result of the third press of program 5 (triple-tap) from `c5Pre`. -/
def c5Post : HandleResult :=
  ⟨{ initState6 with
       edit_mode := true, active_program := 5,
       active_state := [false, false, false, true],
       ts_history := (200, 400, 800), program_history := (5, 5, 5),
       last_ts := 800 },
   [], []⟩

/-- Counterexample to **C5** as stated: in a state reachable from a fresh
construction, a triple-tap program-change is processed (entering edit mode)
without re-deriving `ActiveState`, so immediately afterwards `ActiveState`
(diverged earlier by a manual normal-mode toggle) differs from
`ProgramTable[active_program]`. -/
theorem c5_counterexample :
    (initMapper cfg6 none 0).2 = some (initState6, [.program_change 3 10]) ∧
      handleSeq cfg6 initState6 c5Events = some c5Pre ∧
      handle cfg6 c5Pre.state (.program_change 0 5) 800 = some c5Post ∧
      c5Post.state.edit_mode = true ∧ c5Post.state.active_program = 5 ∧
      c5Post.state.programs.get? c5Post.state.active_program ≠
        some c5Post.state.active_state := by
  exact ⟨by decide, by decide, by decide, by decide, by decide, by decide⟩

/-- **C5** (amended): `ActiveState` equals `ProgramTable[active_program]`
immediately after any `handle` call that emits an outgoing program-change —
that is, after a normal-mode plain program switch or an edit-mode loop
mutation.  Triple-tap entry, edit-mode exit and same-program presses do not
touch `ActiveState`, so a divergence created by manual normal-mode toggles
can persist across them. -/
theorem c5_active_state_synced_after_program_send (c : Config)
    (s : MapperState) (m : MidiMessage) (now ch p : Nat) (r : HandleResult)
    (hr : handle c s m now = some r)
    (hsent : MidiMessage.program_change ch p ∈ r.sent) :
    r.state.programs.get? r.state.active_program =
      some r.state.active_state := by
  cases m <;> simp only [handle] at hr
  repeat' split at hr
  all_goals try exact Option.noConfusion hr
  all_goals obtain rfl := Option.some.inj hr
  all_goals try exact absurd hsent (List.not_mem_nil _)
  all_goals try simp at hsent
  all_goals rename_i happ
  all_goals obtain ⟨row, dl, dr, hrow, hdl, hdr, hs4, hmsg⟩ := apply_program_some happ
  all_goals subst hs4
  all_goals exact hrow

/-- The result of the program switch used in the **C5** witness. -/
def c5WitnessResult : HandleResult :=
  ⟨{ programs := [[false, false, false, false], [true, true, false, false]],
     edit_mode := false, active_program := 1,
     active_state := [true, true, false, false],
     ts_history := (0, 0, 200), program_history := (-1, -1, 1),
     last_ts := 200 },
   [.program_change 3 40], []⟩

/-- Witness for **C5**: the amended theorem applied to a concrete plain
program switch that sends program-change 40. -/
theorem c5_witness :
    c5WitnessResult.state.programs.get? c5WitnessResult.state.active_program =
      some c5WitnessResult.state.active_state :=
  c5_active_state_synced_after_program_send cfg6
    { programs := [[false, false, false, false], [true, true, false, false]],
      edit_mode := false, active_program := 0,
      active_state := [false, false, false, false],
      ts_history := (0, 0, 0), program_history := (-1, -1, -1), last_ts := 0 }
    (.program_change 0 1) 200 3 40 c5WitnessResult (by decide) (by decide)

/-! ## C9 -/

/-- **C9**: every `handle` call writes the incoming arrival time into the
debounce clock, including events the filters then reject, so in an unbroken
chain of events each arriving less than 100 ms after its predecessor no event
after the first is ever accepted: the whole chain only slides the debounce
clock, sending nothing and saving nothing, however long it runs. -/
theorem c9_debounce_clock_always_slides (c : Config) (s : MapperState)
    (m : MidiMessage) (now : Nat) :
    (∀ r, handle c s m now = some r → r.state.last_ts = now) ∧
      ∀ (events : List (MidiMessage × Nat)) (r : HandleResult),
        handle c s m now = some r →
        debounceChain now events = true →
        handleSeq c r.state events =
          some ⟨{ r.state with last_ts := lastTs now events }, [], []⟩ := by
  refine ⟨fun r hr => handle_some_last_ts hr, fun events r hr hchain => ?_⟩
  exact handleSeq_debounced c events r.state now (handle_some_last_ts hr) hchain

/-- The state after the first (accepted) event of the **C9** witness. -/
def c9First : HandleResult :=
  ⟨{ stateAt1000 with
       ts_history := (0, 0, 1100),
       program_history := (-1, -1, 0),
       last_ts := 1100 }, [], []⟩

/-- A bouncing chain for the **C9** witness: three events, each less than
100 ms after its predecessor. -/
def c9Chain : List (MidiMessage × Nat) :=
  [(.control_change 0 80 127, 1150), (.program_change 0 1, 1200),
   (.other 0, 1249)]

/-- Witness for **C9**: the theorem applied at a concrete accepted event
followed by a concrete three-event bounce chain. -/
theorem c9_witness :
    c9First.state.last_ts = 1100 ∧
      handleSeq cfg6 c9First.state c9Chain =
        some ⟨{ c9First.state with last_ts := lastTs 1100 c9Chain }, [], []⟩ :=
  ⟨(c9_debounce_clock_always_slides cfg6 stateAt1000 (.program_change 0 0) 1100).1
      c9First (by decide),
    (c9_debounce_clock_always_slides cfg6 stateAt1000 (.program_change 0 0) 1100).2
      c9Chain c9First (by decide) (by decide)⟩
